import Mathlib

/-!
Verification of the grok_zephyr orbital-constellation renderer.

The development shallowly embeds the arithmetic core of the source:
the GPU orbital propagation kernel (`ORBITAL_CS` in `src/shaders/index.ts`),
the host-side body tracker (`SatelliteGPUBuffer.calculateSatellitePosition`),
the satellite billboard vertex stage, the beam compute kernel, the bloom
pipeline stages (all in `src/shaders/post_process.wgsl`), and the camera
controller (`src/camera/CameraController.ts`).  Machine `f32` arithmetic is
idealised over `ℝ`; all stated equalities are the exact real-number forms of
the floating-point computations.
-/

namespace GrokZephyr

open scoped Classical

/-- 3-component vector, modelling `Vec3` / `vec3f`. -/
abbrev Vec3 := ℝ × ℝ × ℝ

/-- 4-component vector, modelling `Vec4` / `vec4f`. -/
abbrev Vec4 := ℝ × ℝ × ℝ × ℝ

/-- `v3add` from `src/utils/math.ts`. -/
def v3add (a b : Vec3) : Vec3 := (a.1 + b.1, a.2.1 + b.2.1, a.2.2 + b.2.2)

/-- `v3sub` from `src/utils/math.ts`. -/
def v3sub (a b : Vec3) : Vec3 := (a.1 - b.1, a.2.1 - b.2.1, a.2.2 - b.2.2)

/-- `v3scale` from `src/utils/math.ts`. -/
def v3scale (a : Vec3) (s : ℝ) : Vec3 := (a.1 * s, a.2.1 * s, a.2.2 * s)

/-- `v3dot` from `src/utils/math.ts`. -/
def v3dot (a b : Vec3) : ℝ := a.1 * b.1 + a.2.1 * b.2.1 + a.2.2 * b.2.2

/-- `v3cross` from `src/utils/math.ts`. -/
def v3cross (a b : Vec3) : Vec3 :=
  (a.2.1 * b.2.2 - a.2.2 * b.2.1,
   a.2.2 * b.1 - a.1 * b.2.2,
   a.1 * b.2.1 - a.2.1 * b.1)

/-- `v3len` from `src/utils/math.ts`: Euclidean length. -/
noncomputable def v3len (a : Vec3) : ℝ :=
  Real.sqrt (a.1 ^ 2 + a.2.1 ^ 2 + a.2.2 ^ 2)

/-- `v3norm` from `src/utils/math.ts`.  The source computes
`len = v3len(a) || 1`, i.e. a zero length is replaced by 1. -/
noncomputable def v3norm (a : Vec3) : Vec3 :=
  let len := if v3len a = 0 then 1 else v3len a
  (a.1 / len, a.2.1 / len, a.2.2 / len)

/-- WGSL `clamp(e, low, high) = min(max(e, low), high)`. -/
noncomputable def wclamp (x lo hi : ℝ) : ℝ := min (max x lo) hi

/-- WGSL `smoothstep(edge0, edge1, x)`: Hermite interpolation of the clamped
linear ramp. -/
noncomputable def smoothstep (e0 e1 x : ℝ) : ℝ :=
  let t := wclamp ((x - e0) / (e1 - e0)) 0 1
  t * t * (3 - 2 * t)

/-- WGSL `fract(x) = x - floor(x)`. -/
noncomputable def wfract (x : ℝ) : ℝ := x - ⌊x⌋

/-! ## Orbital elements and the propagation kernel

`src/core/SatelliteGPUBuffer.ts` stores one `vec4f` per body:
`[raan, inclination, meanAnomaly, shellData]`, where
`shellData = (shellIndex << 8) | (colorIndex & 0xFF)` is a small
non-negative integer written into the `f32` slot.  We keep it as `ℕ`.
-/

/-- One body's immutable orbital element record. -/
structure OrbElem where
  raan : ℝ
  inc : ℝ
  m0 : ℝ
  shellData : ℕ

/-- `ORBIT_KM` of the propagation kernel `ORBITAL_CS` in
`src/shaders/index.ts`. -/
def ORBIT_KM : ℝ := 6921.0

/-- `MEAN_MOTION` of the propagation kernel `ORBITAL_CS` in
`src/shaders/index.ts`. -/
def MEAN_MOTION : ℝ := 0.001097

/-- The position written by `fn main` of `ORBITAL_CS`
(`src/shaders/index.ts`, lines 32-61): a circular orbit of fixed radius
`ORBIT_KM` and fixed mean motion `MEAN_MOTION`, rotated by inclination and
RAAN.  The shell data in `e.w` is passed through untouched and never read. -/
noncomputable def orbitalCSMain (e : OrbElem) (t : ℝ) : Vec3 :=
  (ORBIT_KM * (Real.cos e.raan * Real.cos (e.m0 + MEAN_MOTION * t) -
      Real.sin e.raan * Real.sin (e.m0 + MEAN_MOTION * t) * Real.cos e.inc),
   ORBIT_KM * (Real.sin e.raan * Real.cos (e.m0 + MEAN_MOTION * t) +
      Real.cos e.raan * Real.sin (e.m0 + MEAN_MOTION * t) * Real.cos e.inc),
   ORBIT_KM * Real.sin (e.m0 + MEAN_MOTION * t) * Real.sin e.inc)

/-- Shell index extraction `(shellData >> 8) & 0xFF` used by
`calculateSatellitePosition` in `src/core/SatelliteGPUBuffer.ts`. -/
def shellIndexOf (shellData : ℕ) : ℕ := (shellData / 256) % 256

/-- `SHELL_RADII_KM[shellIndex] || 6921.0` from
`SatelliteGPUBuffer.calculateSatellitePosition` (the JS `||` falls back to
6921 for an out-of-range index). -/
def shellRadius (shellIndex : ℕ) : ℝ :=
  if shellIndex = 0 then 6711.0
  else if shellIndex = 1 then 6921.0
  else if shellIndex = 2 then 7521.0
  else 6921.0

/-- `meanMotions[shellIndex] || 0.001097` from
`SatelliteGPUBuffer.calculateSatellitePosition`. -/
def shellMeanMotion (shellIndex : ℕ) : ℝ :=
  if shellIndex = 0 then 0.001153
  else if shellIndex = 1 then 0.001097
  else if shellIndex = 2 then 0.000946
  else 0.001097

/-- `SatelliteGPUBuffer.calculateSatellitePosition` (lines 324-353): the
host-side tracker query.  Unlike the kernel it decodes the shell index and
uses the per-shell radius and mean motion. -/
noncomputable def calculateSatellitePosition (e : OrbElem) (t : ℝ) : Vec3 :=
  (shellRadius (shellIndexOf e.shellData) *
      (Real.cos e.raan *
        Real.cos (e.m0 + shellMeanMotion (shellIndexOf e.shellData) * t) -
       Real.sin e.raan *
        Real.sin (e.m0 + shellMeanMotion (shellIndexOf e.shellData) * t) *
        Real.cos e.inc),
   shellRadius (shellIndexOf e.shellData) *
      (Real.sin e.raan *
        Real.cos (e.m0 + shellMeanMotion (shellIndexOf e.shellData) * t) +
       Real.cos e.raan *
        Real.sin (e.m0 + shellMeanMotion (shellIndexOf e.shellData) * t) *
        Real.cos e.inc),
   shellRadius (shellIndexOf e.shellData) *
      Real.sin (e.m0 + shellMeanMotion (shellIndexOf e.shellData) * t) *
      Real.sin e.inc)

/-- A shell-0 body (radius 6711 km, `shellData = (0 << 8) | 2`), as produced
by `generateOrbitalElements` for a blue low-shell satellite. -/
def elemShell0 : OrbElem := ⟨0, 0, 0, 2⟩

/-! ## Billboard sizing (`SAT_SHADER` vertex stage, `post_process.wgsl`)

```
var bsize = 900.0 / sqrt(max(dist, 60.0));
bsize = clamp(bsize, 0.5, 90.0);
if (uni.view_mode == 2u && dist < 500.0) {
  bsize = bsize * (1.0 + smoothstep(500.0, 50.0, dist) * 1.5);
}
```
-/

/-- The clamped inverse-sqrt base size. -/
noncomputable def bsizeBase (dist : ℝ) : ℝ :=
  wclamp (900 / Real.sqrt (max dist 60)) 0.5 90

/-- The Fleet-POV close-up multiplier (1 outside mode 2 or beyond 500 km). -/
noncomputable def fleetBoost (viewMode : ℕ) (dist : ℝ) : ℝ :=
  if viewMode = 2 ∧ dist < 500 then 1 + smoothstep 500 50 dist * 1.5 else 1

/-- The billboard size computed by the satellite vertex stage
(`post_process.wgsl`, lines 638-646). -/
noncomputable def bsize (viewMode : ℕ) (dist : ℝ) : ℝ :=
  if viewMode = 2 ∧ dist < 500 then
    wclamp (900 / Real.sqrt (max dist 60)) 0.5 90 *
      (1 + smoothstep 500 50 dist * 1.5)
  else
    wclamp (900 / Real.sqrt (max dist 60)) 0.5 90

/-! ## Satellite billboard vertex stage (`SAT_SHADER` `vs`, `post_process.wgsl`)

The frame uniform block `Uni`.  The `mat4x4f view_proj` is modelled by the
map it induces on `vec4f`. -/

/-- The per-frame uniform block (`struct Uni` in `post_process.wgsl`). -/
structure Uni where
  viewProj : Vec4 → Vec4
  cameraPos : Vec3
  cameraRight : Vec3
  cameraUp : Vec3
  time : ℝ
  deltaTime : ℝ
  viewMode : ℕ
  isGroundView : Bool
  frustum : Fin 6 → Vec4
  screenSize : ℝ × ℝ

/-- The satellite vertex stage output (`struct VOut` in `SAT_SHADER`). -/
structure VOut where
  cp : Vec4
  uv : ℝ × ℝ
  color : Vec3
  bright : ℝ

/-- Signed plane test `dot(pl.xyz, wp) + pl.w`. -/
def planeDot (pl : Vec4) (v : Vec3) : ℝ :=
  pl.1 * v.1 + pl.2.1 * v.2.1 + pl.2.2.1 * v.2.2 + pl.2.2.2

/-- `EARTH_RADIUS_KM` constant of the satellite shader. -/
def EARTH_RADIUS_KM : ℝ := 6371.0

/-- Coefficient `a` of the ground-view ray-sphere quadratic:
`dot(ray_dir, ray_dir)` with `ray_dir = wp - cam`. -/
def quadA (cam wp : Vec3) : ℝ := v3dot (v3sub wp cam) (v3sub wp cam)

/-- Coefficient `b = 2 * dot(cam, ray_dir)` of the ray-sphere quadratic. -/
def quadB (cam wp : Vec3) : ℝ := 2 * v3dot cam (v3sub wp cam)

/-- Coefficient `c = dot(cam, cam) - EARTH_RADIUS_KM * EARTH_RADIUS_KM`. -/
def quadC (cam : Vec3) : ℝ := v3dot cam cam - EARTH_RADIUS_KM * EARTH_RADIUS_KM

/-- The root `t1 = (-b - sqrt(discriminant)) / (2a)` computed by the shader. -/
noncomputable def hcT1 (cam wp : Vec3) : ℝ :=
  (-quadB cam wp -
      Real.sqrt (quadB cam wp * quadB cam wp - 4 * quadA cam wp * quadC cam)) /
    (2 * quadA cam wp)

/-- The root `t2 = (-b + sqrt(discriminant)) / (2a)` computed by the shader. -/
noncomputable def hcT2 (cam wp : Vec3) : ℝ :=
  (-quadB cam wp +
      Real.sqrt (quadB cam wp * quadB cam wp - 4 * quadA cam wp * quadC cam)) /
    (2 * quadA cam wp)

/-- The ground-view horizon-occlusion test (`post_process.wgsl`, lines
611-627): the body is culled when the discriminant is non-negative and
either quadratic root lies strictly in `(0, 1)`. -/
noncomputable def horizonCulled (cam wp : Vec3) : Prop :=
  quadB cam wp * quadB cam wp - 4 * quadA cam wp * quadC cam ≥ 0 ∧
    ((hcT1 cam wp > 0 ∧ hcT1 cam wp < 1) ∨ (hcT2 cam wp > 0 ∧ hcT2 cam wp < 1))

/-- The `visible` flag after the three culling tests of the satellite vertex
stage (`post_process.wgsl`, lines 602-627): distance cull at 180000, frustum
cull with a -200 margin on every plane, and (ground view only) the horizon
test. -/
noncomputable def satVisible (uni : Uni) (wp : Vec3) : Prop :=
  ¬ v3len (v3sub wp uni.cameraPos) > 180000 ∧
    (∀ p : Fin 6, ¬ planeDot (uni.frustum p) wp < -200) ∧
    (uni.isGroundView = true → ¬ horizonCulled uni.cameraPos wp)

/-- The vertex output for a culled body: a degenerate position, zero color
and zero brightness. -/
def invisibleVOut : VOut := ⟨(10, 10, 10, 1), (0, 0), (0, 0, 0), 0⟩

/-- `fn shell_color` of `SAT_SHADER`. -/
def shell_color (colorIdx : ℕ) : Vec3 :=
  if colorIdx = 2 then (0.15, 0.55, 1.0)
  else if colorIdx = 6 then (0.85, 0.92, 1.0)
  else if colorIdx = 3 then (1.0, 0.78, 0.28)
  else if colorIdx % 7 = 0 then (1.0, 0.18, 0.18)
  else if colorIdx % 7 = 1 then (0.18, 1.0, 0.18)
  else if colorIdx % 7 = 4 then (0.1, 1.0, 1.0)
  else if colorIdx % 7 = 5 then (1.0, 0.1, 1.0)
  else (1.0, 1.0, 1.0)

/-- `fn shell_pulse` of `SAT_SHADER`. -/
noncomputable def shell_pulse (colorIdx : ℕ) (phase time : ℝ) : ℝ :=
  if colorIdx = 2 then 0.4 + 0.6 * (0.5 + 0.5 * Real.sin (phase * 0.2 + time * 2.5))
  else if colorIdx = 6 then
    0.7 + 0.3 * (0.5 + 0.5 * Real.sin (phase * 0.1 + time * 0.6))
  else if colorIdx = 3 then
    0.5 + 0.5 * (0.5 + 0.5 * Real.sin (phase * 0.08 + time * 0.35))
  else 0.35 + 0.65 * (0.5 + 0.5 * Real.sin (phase * 0.15 + time * 0.8))

/-- The 6-vertex billboard quad corner table of `SAT_SHADER`. -/
def quadCorner : Fin 6 → ℝ × ℝ :=
  ![(-1, -1), (1, -1), (-1, 1), (-1, 1), (1, -1), (1, 1)]

/-- WGSL `u32(abs(x))`: conversion of a non-negative `f32` to `u32`
truncates toward zero. -/
noncomputable def u32abs (x : ℝ) : ℕ := (⌊|x|⌋).toNat

/-- The ground-view RGB blinking test-pattern color (`SAT_SHADER` `vs`,
ground-view branch). -/
noncomputable def groundTestColor (time : ℝ) (ii : ℕ) : Vec3 :=
  if wfract (time * 2.0 + (ii : ℝ) * 0.001) < 0.33 then (1, 0, 0)
  else if wfract (time * 2.0 + (ii : ℝ) * 0.001) < 0.66 then (0, 1, 0)
  else (0, 0, 1)

/-- `fn vs` of `SAT_SHADER` (`post_process.wgsl`, lines 590-684): per-body
visibility decision and billboard projection.  `satPos` is the position
buffer (`xyz` position, `w` packed color data), `vi` the vertex index within
the quad, `ii` the instance (body) index. -/
noncomputable def satShaderVS (uni : Uni) (satPos : ℕ → Vec3 × ℝ)
    (vi : Fin 6) (ii : ℕ) : VOut :=
  if satVisible uni (satPos ii).1 then
    VOut.mk
      (uni.viewProj
        ((v3add (satPos ii).1
            (v3scale
              (v3add (v3scale uni.cameraRight (quadCorner vi).1)
                (v3scale uni.cameraUp (quadCorner vi).2))
              (bsize uni.viewMode
                (v3len (v3sub (satPos ii).1 uni.cameraPos))))).1,
         (v3add (satPos ii).1
            (v3scale
              (v3add (v3scale uni.cameraRight (quadCorner vi).1)
                (v3scale uni.cameraUp (quadCorner vi).2))
              (bsize uni.viewMode
                (v3len (v3sub (satPos ii).1 uni.cameraPos))))).2.1,
         (v3add (satPos ii).1
            (v3scale
              (v3add (v3scale uni.cameraRight (quadCorner vi).1)
                (v3scale uni.cameraUp (quadCorner vi).2))
              (bsize uni.viewMode
                (v3len (v3sub (satPos ii).1 uni.cameraPos))))).2.2,
         1))
      (((quadCorner vi).1 + 1) * 0.5, ((quadCorner vi).2 + 1) * 0.5)
      (if uni.isGroundView = true then groundTestColor uni.time ii
       else shell_color (u32abs (satPos ii).2 % 7))
      (if uni.isGroundView = true then 2.0
       else
        shell_pulse (u32abs (satPos ii).2 % 7)
          ((satPos ii).2 * 0.15 + (ii : ℝ) * 0.000613) uni.time *
          (1 / (1 + v3len (v3sub (satPos ii).1 uni.cameraPos) * 0.0006)))
  else invisibleVOut

/-- A neutral frame uniform block used for concrete evaluations. -/
def uniBase : Uni :=
  ⟨fun v => v, (0, 0, 0), (0, 0, 0), (0, 0, 0), 0, 0, 0, false,
   fun _ => (0, 0, 0, 0), (0, 0)⟩

/-- A position buffer holding a body 200000 km from the origin. -/
def satPosFar : ℕ → Vec3 × ℝ := fun _ => ((200000, 0, 0), 0)

/-- A frame whose first frustum plane rejects bodies with `x > 200`. -/
def uniFrustumW : Uni :=
  { uniBase with frustum := fun p => if p = 0 then (-1, 0, 0, 0) else (0, 0, 0, 0) }

/-- A position buffer holding a nearby body at `x = 300`. -/
def satPosNear : ℕ → Vec3 × ℝ := fun _ => ((300, 0, 0), 0)

/-- A ground-view frame with the camera on the planet surface at `(6371,0,0)`. -/
def uniGroundW : Uni :=
  { uniBase with cameraPos := (6371, 0, 0), isGroundView := true }

/-- A position buffer holding a body diametrically behind the planet, at the
same 19113 km camera distance as the overhead body `(25484, 0, 0)`. -/
def satPosBehind : ℕ → Vec3 × ℝ := fun _ => ((-12742, 0, 0), 0)

/-! ## Beam compute kernel (`BEAM_COMPUTE_SHADER`, `post_process.wgsl`) -/

/-- The beam kernel parameter block (`struct BeamParams`). -/
structure BeamParams where
  time : ℝ
  patternMode : ℕ
  density : ℕ

/-- One beam record: `start = vec4f(satPos, intensity)` and
`end = vec4f(target, hue)`. -/
structure Beam where
  startPos : Vec3
  intensity : ℝ
  endPos : Vec3
  hue : ℝ

/-- The effect of one beam-kernel invocation on its beam slot: out-of-range
lanes return without touching the buffer, out-of-range body indices write
only `start.w = 0`, and in-range lanes write a full beam. -/
inductive BeamWrite
  | noWrite
  | disableOnly
  | write (b : Beam)

/-- WGSL `atan2(y, x)`, modelled by the argument of the complex number
`x + y*I` (range `(-π, π]`, matching the builtin's convention). -/
noncomputable def watan2 (y x : ℝ) : ℝ := Complex.arg ⟨x, y⟩

/-- `fn dirToUV`: equirectangular mapping of a unit direction to surface UV,
with the shader's `3.14159` literal. -/
noncomputable def dirToUV (dir : Vec3) : ℝ × ℝ :=
  (wfract (watan2 dir.2.1 dir.1 / (3.14159 * 2) + 0.5),
   Real.arcsin (wclamp dir.2.2 (-1) 1) / 3.14159 + 0.5)

/-- The G-glyph test of `fn logoPattern` (band gate plus C-with-crossbar
mask in the letter-local frame). -/
noncomputable def logoG (uv : ℝ × ℝ) : Prop :=
  uv.1 > 0.1 ∧ uv.1 < 0.25 ∧
    (|(uv.1 - 0.1) / 0.15 - 0.5| < 0.4 ∧ |uv.2 - 0.5| < 0.4) ∧
    ¬((uv.1 - 0.1) / 0.15 > 0.3 ∧ uv.2 > 0.2 ∧ uv.2 < 0.5 ∧
      (uv.1 - 0.1) / 0.15 < 0.7)

/-- The R-glyph test of `fn logoPattern`. -/
noncomputable def logoR (uv : ℝ × ℝ) : Prop :=
  uv.1 > 0.3 ∧ uv.1 < 0.45 ∧
    ((uv.1 - 0.3) / 0.15 < 0.3 ∨
      (|(uv.1 - 0.3) / 0.15 - 0.5| < 0.25 ∧ |uv.2 - 0.65| < 0.25) ∨
      ((uv.1 - 0.3) / 0.15 > 0.4 ∧ uv.2 < 0.5))

/-- The O-glyph (annulus) test of `fn logoPattern`. -/
noncomputable def logoO (uv : ℝ × ℝ) : Prop :=
  uv.1 > 0.5 ∧ uv.1 < 0.65 ∧
    Real.sqrt (((uv.1 - 0.5) / 0.15 - 0.5) ^ 2 + (uv.2 - 0.5) ^ 2) > 0.25 ∧
    Real.sqrt (((uv.1 - 0.5) / 0.15 - 0.5) ^ 2 + (uv.2 - 0.5) ^ 2) < 0.45

/-- The K-glyph test of `fn logoPattern`. -/
noncomputable def logoK (uv : ℝ × ℝ) : Prop :=
  uv.1 > 0.7 ∧ uv.1 < 0.85 ∧
    ((uv.1 - 0.7) / 0.15 < 0.3 ∨
      |uv.2 - (1 - (uv.1 - 0.7) / 0.15 * 0.8)| < 0.15 ∨
      |uv.2 - (0.2 + (uv.1 - 0.7) / 0.15 * 0.6)| < 0.15)

/-- `fn logoPattern`: intensity 1 inside any of the four glyph masks, else
0.  (The `t` parameter is unused by the source body.) -/
noncomputable def logoPattern (uv : ℝ × ℝ) (t : ℝ) : ℝ :=
  if logoG uv ∨ logoR uv ∨ logoO uv ∨ logoK uv then 1.0 else 0.0

/-- `fn xLogoPattern`: diagonal-cross mask. -/
noncomputable def xLogoPattern (uv : ℝ × ℝ) : ℝ :=
  if |uv.2 - 0.5 - (uv.1 - 0.5)| < 0.1 ∨ |uv.2 - 0.5 + (uv.1 - 0.5)| < 0.1
  then 1.0 else 0.0

/-- `MAX_BEAMS` (`src/core/SatelliteGPUBuffer.ts` and the beam kernel). -/
def MAX_BEAMS : ℕ := 65536

/-- `SATELLITE_STRIDE` of the beam kernel. -/
def SATELLITE_STRIDE : ℕ := 16

/-- `NUM_SAT`: total body count `2^20`. -/
def NUM_SAT : ℕ := 1048576

/-- `fn main` of `BEAM_COMPUTE_SHADER` (`post_process.wgsl`, lines 839-909).
The WGSL `normalize` builtin is modelled by `v3norm` (they agree on nonzero
vectors, the only inputs on which the builtin is defined). -/
noncomputable def beamComputeMain (satPos : ℕ → Vec3 × ℝ)
    (params : BeamParams) (i : ℕ) : BeamWrite :=
  if i ≥ MAX_BEAMS then .noWrite
  else if SATELLITE_STRIDE * i ≥ NUM_SAT then .disableOnly
  else if params.patternMode = 0 then
    .write ⟨(satPos (SATELLITE_STRIDE * i)).1, 0.9,
      v3add (v3scale (v3norm (satPos (SATELLITE_STRIDE * i)).1) 6371)
        (Real.sin (params.time + (i : ℝ) * 0.1) * 50,
         Real.cos (params.time * 0.7 + (i : ℝ) * 0.13) * 50,
         Real.sin (params.time * 0.3 + (i : ℝ) * 0.07) * 30),
      wfract (params.time * 0.03 + (i : ℝ) * 0.0001) * 360⟩
  else if params.patternMode = 1 then
    if logoPattern (dirToUV (v3norm (satPos (SATELLITE_STRIDE * i)).1))
        params.time > 0.5 then
      .write ⟨(satPos (SATELLITE_STRIDE * i)).1, 1.0,
        v3add (v3scale (v3norm (satPos (SATELLITE_STRIDE * i)).1) 6371)
          (v3scale (v3norm (satPos (SATELLITE_STRIDE * i)).1)
            (Real.sin (params.time * 2 +
              (dirToUV (v3norm (satPos (SATELLITE_STRIDE * i)).1)).1 * 10) *
              20)),
        180 + Real.sin (params.time + (i : ℝ) * 0.01) * 30⟩
    else
      .write ⟨(satPos (SATELLITE_STRIDE * i)).1, 0.3,
        v3add (v3scale (v3norm (satPos (SATELLITE_STRIDE * i)).1) 6371)
          (v3scale (v3norm (satPos (SATELLITE_STRIDE * i)).1)
            (Real.sin (params.time * 2 +
              (dirToUV (v3norm (satPos (SATELLITE_STRIDE * i)).1)).1 * 10) *
              20)),
        wfract (params.time * 0.01 + (i : ℝ) * 0.001) * 360⟩
  else if params.patternMode = 2 then
    if xLogoPattern (dirToUV (v3norm (satPos (SATELLITE_STRIDE * i)).1)) >
        0.5 then
      .write ⟨(satPos (SATELLITE_STRIDE * i)).1, 1.0,
        v3scale (v3norm (satPos (SATELLITE_STRIDE * i)).1) 6371, 0⟩
    else
      .write ⟨(satPos (SATELLITE_STRIDE * i)).1, 0.0,
        v3scale (v3norm (satPos (SATELLITE_STRIDE * i)).1) 6371, 0⟩
  else
    .write ⟨(satPos (SATELLITE_STRIDE * i)).1, 0.9,
      v3scale (v3norm (satPos (SATELLITE_STRIDE * i)).1) 6371, 0⟩

/-- A beam slot is enabled when the kernel writes a full beam with positive
intensity. -/
noncomputable def beamEnabled (satPos : ℕ → Vec3 × ℝ) (params : BeamParams)
    (i : ℕ) : Prop :=
  ∃ b, beamComputeMain satPos params i = .write b ∧ b.intensity > 0

/-- The default beam parameters uploaded at startup
(`SatelliteGPUBuffer.initialize`: pattern mode 1, the logo default). -/
def paramsGrok : BeamParams := ⟨0, 1, 65536⟩

/-! ## Bloom pipeline (`BLOOM_THRESHOLD_SHADER` and `BLOOM_BLUR_SHADER`)

An HDR image is modelled as the RGB value at each UV coordinate;
`textureSample` is modelled as lookup (any filtering is a convex combination
of texels, which agrees on the constant images considered here). -/

/-- An HDR color image. -/
def Img := (ℝ × ℝ) → Vec3

/-- The all-black HDR input image. -/
def zeroImg : Img := fun _ => (0, 0, 0)

/-- `fs` of `BLOOM_THRESHOLD_SHADER` (`post_process.wgsl`, lines 697-716):
flip `v`, sample, and scale by the luminance smooth threshold. -/
noncomputable def bloomThresholdFS (img : Img) (uv : ℝ × ℝ) : Vec3 :=
  v3scale (img (uv.1, 1 - uv.2))
    (smoothstep 0.75 1.4
      (v3dot (img (uv.1, 1 - uv.2)) (0.2126, 0.7152, 0.0722)))

/-- The 5-tap Gaussian weights `W` of `BLOOM_BLUR_SHADER`. -/
def blurW : ℕ → ℝ
  | 0 => 0.2270
  | 1 => 0.1945
  | 2 => 0.1216
  | 3 => 0.0540
  | 4 => 0.0162
  | _ => 0

/-- `fs` of `BLOOM_BLUR_SHADER` (`post_process.wgsl`, lines 1010-1035): flip
`v`, pick the blur direction from the `horizontal` flag, and accumulate the
unrolled 5-tap single-direction blur. -/
noncomputable def bloomBlurFS (texel : ℝ × ℝ) (horizontal : Bool)
    (img : Img) (uv : ℝ × ℝ) : Vec3 :=
  let uvf : ℝ × ℝ := (uv.1, 1 - uv.2)
  let d : ℝ × ℝ := if horizontal then (texel.1, 0) else (0, texel.2)
  v3add
    (v3add
      (v3add
        (v3add (v3scale (img uvf) (blurW 0))
          (v3add (v3scale (img (uvf.1 + 1 * d.1, uvf.2 + 1 * d.2)) (blurW 1))
            (v3scale (img (uvf.1 - 1 * d.1, uvf.2 - 1 * d.2)) (blurW 1))))
        (v3add (v3scale (img (uvf.1 + 2 * d.1, uvf.2 + 2 * d.2)) (blurW 2))
          (v3scale (img (uvf.1 - 2 * d.1, uvf.2 - 2 * d.2)) (blurW 2))))
      (v3add (v3scale (img (uvf.1 + 3 * d.1, uvf.2 + 3 * d.2)) (blurW 3))
        (v3scale (img (uvf.1 - 3 * d.1, uvf.2 - 3 * d.2)) (blurW 3))))
    (v3add (v3scale (img (uvf.1 + 4 * d.1, uvf.2 + 4 * d.2)) (blurW 4))
      (v3scale (img (uvf.1 - 4 * d.1, uvf.2 - 4 * d.2)) (blurW 4)))

/-- The three bloom stages in pipeline order: threshold extraction, then
horizontal blur, then vertical blur (`RenderPipeline` passes 3-5). -/
noncomputable def bloomPipeline (texel : ℝ × ℝ) (img : Img) : Img :=
  bloomBlurFS texel false (bloomBlurFS texel true (bloomThresholdFS img))

/-! ## Camera controller (`src/camera/CameraController.ts`)

The controller state relevant to the mode computations and `setViewMode`:
the current mode, the persistent camera angles, the God-view parameters, the
keyboard state, and the Fleet-POV micro-movement offset (the only field any
mode computation mutates). -/

/-- `CameraAngles` (yaw/pitch in degrees, distance in km). -/
structure CameraAngles where
  yaw : ℝ
  pitch : ℝ
  distance : ℝ

/-- `GodViewParams` (legacy radians state kept for compatibility). -/
structure GodViewParams where
  yaw : ℝ
  pitch : ℝ
  distance : ℝ

/-- The pressed-state of the movement keys read by `calculateFleetPOV`. -/
structure Keys where
  keyW : Bool
  keyS : Bool
  keyA : Bool
  keyQ : Bool
  keyD : Bool
  keyE : Bool
  keySpace : Bool
  keyShift : Bool

/-- The four view modes (`'horizon-720' | 'god' | 'sat-pov' | 'ground'`). -/
inductive ViewMode
  | horizon
  | god
  | satPov
  | ground
deriving DecidableEq

/-- The controller's mutable state. -/
structure CtrlState where
  currentMode : ViewMode
  modeIndex : ℤ
  godView : GodViewParams
  cameraAngles : CameraAngles
  keys : Keys
  fleetOffset : Vec3

/-- `CameraState` returned by each mode computation. -/
structure CameraState where
  position : Vec3
  target : Vec3
  up : Vec3
  fov : ℝ
  near : ℝ
  far : ℝ

/-- `MATH.DEG_TO_RAD`. -/
noncomputable def DEG_TO_RAD : ℝ := Real.pi / 180

/-- `CONSTANTS.CAMERA_RADIUS_KM`: 720 km altitude camera radius. -/
def CAMERA_RADIUS_KM : ℝ := 7091.0

/-- `CAMERA.DEFAULT_FOV`. -/
noncomputable def DEFAULT_FOV : ℝ := 60 * DEG_TO_RAD

/-- `CAMERA.NEAR_PLANE`. -/
def NEAR_PLANE : ℝ := 10

/-- `CAMERA.FAR_PLANE`. -/
def FAR_PLANE : ℝ := 50000

/-- `CameraController.calculateHorizonView` (lines 294-334). -/
noncomputable def calculateHorizonView (st : CtrlState) : CameraState :=
  ⟨(CAMERA_RADIUS_KM * Real.cos (st.cameraAngles.yaw * DEG_TO_RAD),
    CAMERA_RADIUS_KM * Real.sin (st.cameraAngles.yaw * DEG_TO_RAD),
    0),
   (CAMERA_RADIUS_KM * Real.cos (st.cameraAngles.yaw * DEG_TO_RAD) +
      1000 * Real.cos (st.cameraAngles.pitch * DEG_TO_RAD) *
        Real.cos (st.cameraAngles.yaw * DEG_TO_RAD),
    CAMERA_RADIUS_KM * Real.sin (st.cameraAngles.yaw * DEG_TO_RAD) +
      1000 * Real.cos (st.cameraAngles.pitch * DEG_TO_RAD) *
        Real.sin (st.cameraAngles.yaw * DEG_TO_RAD),
    1000 * Real.sin (st.cameraAngles.pitch * DEG_TO_RAD) + 5000),
   v3norm (CAMERA_RADIUS_KM * Real.cos (st.cameraAngles.yaw * DEG_TO_RAD),
     CAMERA_RADIUS_KM * Real.sin (st.cameraAngles.yaw * DEG_TO_RAD), 0),
   DEFAULT_FOV, NEAR_PLANE, FAR_PLANE⟩

/-- `CameraController.calculateGodView` (lines 342-375). -/
noncomputable def calculateGodView (st : CtrlState) : CameraState :=
  ⟨(Real.cos (st.cameraAngles.pitch * DEG_TO_RAD) *
      Real.cos (st.cameraAngles.yaw * DEG_TO_RAD) * st.cameraAngles.distance,
    Real.cos (st.cameraAngles.pitch * DEG_TO_RAD) *
      Real.sin (st.cameraAngles.yaw * DEG_TO_RAD) * st.cameraAngles.distance,
    Real.sin (st.cameraAngles.pitch * DEG_TO_RAD) * st.cameraAngles.distance),
   (0, 0, 0),
   (if |st.cameraAngles.pitch * DEG_TO_RAD| > 1.35 then
      ((Real.cos (st.cameraAngles.yaw * DEG_TO_RAD),
        Real.sin (st.cameraAngles.yaw * DEG_TO_RAD), 0) : Vec3)
    else (0, 0, 1)),
   DEFAULT_FOV, NEAR_PLANE, FAR_PLANE⟩

/-- `CameraController.calculateGroundView` (lines 470-512): surface observer
100 m above the `EARTH_RADIUS_KM` sphere, with the pitch sign inverted for
look elevation. -/
noncomputable def calculateGroundView (st : CtrlState) : CameraState :=
  ⟨((EARTH_RADIUS_KM + 0.1) * Real.cos (st.cameraAngles.yaw * DEG_TO_RAD),
    (EARTH_RADIUS_KM + 0.1) * Real.sin (st.cameraAngles.yaw * DEG_TO_RAD),
    0),
   ((EARTH_RADIUS_KM + 0.1) * Real.cos (st.cameraAngles.yaw * DEG_TO_RAD) +
      (Real.cos (st.cameraAngles.yaw * DEG_TO_RAD) *
          Real.cos (-(st.cameraAngles.pitch * DEG_TO_RAD)) -
        Real.sin (st.cameraAngles.yaw * DEG_TO_RAD) * 0) * 10000,
    (EARTH_RADIUS_KM + 0.1) * Real.sin (st.cameraAngles.yaw * DEG_TO_RAD) +
      (Real.sin (st.cameraAngles.yaw * DEG_TO_RAD) *
          Real.cos (-(st.cameraAngles.pitch * DEG_TO_RAD)) +
        Real.cos (st.cameraAngles.yaw * DEG_TO_RAD) * 0) * 10000,
    0 + Real.sin (-(st.cameraAngles.pitch * DEG_TO_RAD)) * 10000),
   v3norm ((EARTH_RADIUS_KM + 0.1) * Real.cos (st.cameraAngles.yaw * DEG_TO_RAD),
     (EARTH_RADIUS_KM + 0.1) * Real.sin (st.cameraAngles.yaw * DEG_TO_RAD), 0),
   DEFAULT_FOV, 0.1, FAR_PLANE⟩

/-- `CameraController.calculateFleetPOV` (lines 382-462).  The method reads
the tracked body's position and velocity through the two query callbacks,
integrates the WASD/QE/space/shift micro-movement into the fleet offset,
dampens it by 0.98, and applies yaw/pitch as Rodrigues rotations in the
body-local frame.  The returned pair is the computed `CameraState` together
with the new value of `this.fleetOffset` (the state the method mutates). -/
noncomputable def calculateFleetPOV (st : CtrlState)
    (getPos getVel : ℕ → ℝ → Vec3) (time : ℝ) : CameraState × Vec3 :=
  let satPos := getPos 0 time
  let satVel := getVel 0 time
  let radial := v3norm satPos
  let forward := v3norm satVel
  let right := v3norm (v3cross forward radial)
  let localUp := v3norm (v3cross right forward)
  let off1 := if st.keys.keyW then v3add st.fleetOffset (v3scale forward 0.08)
    else st.fleetOffset
  let off2 := if st.keys.keyS then v3add off1 (v3scale forward (-0.08)) else off1
  let off3 := if st.keys.keyA ∨ st.keys.keyQ then
    v3add off2 (v3scale right (-0.08)) else off2
  let off4 := if st.keys.keyD ∨ st.keys.keyE then
    v3add off3 (v3scale right 0.08) else off3
  let off5 := if st.keys.keySpace then v3add off4 (v3scale localUp 0.08) else off4
  let off6 := if st.keys.keyShift then v3add off5 (v3scale localUp (-0.08))
    else off5
  let offFinal := v3scale off6 0.98
  let position := v3add (v3add satPos (v3scale radial 12)) offFinal
  let cosY := Real.cos (st.cameraAngles.yaw * DEG_TO_RAD)
  let sinY := Real.sin (st.cameraAngles.yaw * DEG_TO_RAD)
  let lookDir1 := v3norm
    (forward.1 * cosY + (v3cross localUp forward).1 * sinY +
       localUp.1 * v3dot localUp forward * (1 - cosY),
     forward.2.1 * cosY + (v3cross localUp forward).2.1 * sinY +
       localUp.2.1 * v3dot localUp forward * (1 - cosY),
     forward.2.2 * cosY + (v3cross localUp forward).2.2 * sinY +
       localUp.2.2 * v3dot localUp forward * (1 - cosY))
  let lookRight := v3norm (v3cross lookDir1 localUp)
  let cosP := Real.cos (st.cameraAngles.pitch * DEG_TO_RAD)
  let sinP := Real.sin (st.cameraAngles.pitch * DEG_TO_RAD)
  let lookDir3 := v3norm
    (lookDir1.1 * cosP + (v3cross lookRight lookDir1).1 * sinP +
       lookRight.1 * v3dot lookRight lookDir1 * (1 - cosP),
     lookDir1.2.1 * cosP + (v3cross lookRight lookDir1).2.1 * sinP +
       lookRight.2.1 * v3dot lookRight lookDir1 * (1 - cosP),
     lookDir1.2.2 * cosP + (v3cross lookRight lookDir1).2.2 * sinP +
       lookRight.2.2 * v3dot lookRight lookDir1 * (1 - cosP))
  let target := v3add position (v3scale lookDir3 100)
  let viewRight := v3norm (v3cross lookDir3 localUp)
  let viewUp := v3norm (v3cross viewRight lookDir3)
  let bob := Real.sin (time * 1.7) * 0.3
  let bobbedPos := v3add position (v3scale localUp bob)
  (⟨bobbedPos, target, viewUp, DEFAULT_FOV, 1.0, FAR_PLANE⟩, offFinal)

/-- `CameraController.calculateCamera` (lines 269-286): dispatch on the
current mode.  The result pairs the `CameraState` with the controller state
after the call (only `calculateFleetPOV` mutates it, through
`fleetOffset`). -/
noncomputable def calculateCamera (st : CtrlState)
    (getPos getVel : ℕ → ℝ → Vec3) (time : ℝ) : CameraState × CtrlState :=
  match st.currentMode with
  | .horizon => (calculateHorizonView st, st)
  | .god => (calculateGodView st, st)
  | .satPov =>
      ((calculateFleetPOV st getPos getVel time).1,
       { st with fleetOffset := (calculateFleetPOV st getPos getVel time).2 })
  | .ground => (calculateGroundView st, st)

/-- `CameraController.setViewMode` (lines 222-250): store the index, reset
the fleet offset, and select the mode with a Horizon fallback. -/
def setViewMode (idx : ℤ) (st : CtrlState) : CtrlState :=
  { st with
    modeIndex := idx
    fleetOffset := (0, 0, 0)
    currentMode :=
      if idx = 0 then .horizon
      else if idx = 1 then .god
      else if idx = 2 then .satPov
      else if idx = 3 then .ground
      else .horizon }

/-- No movement key is held. -/
def NoMoveKeys (k : Keys) : Prop :=
  k.keyW = false ∧ k.keyS = false ∧ k.keyA = false ∧ k.keyQ = false ∧
    k.keyD = false ∧ k.keyE = false ∧ k.keySpace = false ∧ k.keyShift = false

/-- All movement keys released. -/
def keysNone : Keys := ⟨false, false, false, false, false, false, false, false⟩

/-- A Fleet-POV controller state with a nonzero pending micro-movement
offset and no keys held. -/
def fleetS0 : CtrlState :=
  ⟨.satPov, 2, ⟨0, 0.35, 25000⟩, ⟨0, 0, 25000⟩, keysNone, (1, 0, 0)⟩

/-- A Horizon controller state at yaw 0, pitch 0. -/
def stHorizonW : CtrlState :=
  ⟨.horizon, 0, ⟨0, 0.35, 25000⟩, ⟨0, 0, 25000⟩, keysNone, (0, 0, 0)⟩

/-- A Fleet-POV state with zero offset and no keys held. -/
def fleetS1 : CtrlState :=
  ⟨.satPov, 2, ⟨0, 0.35, 25000⟩, ⟨0, 0, 25000⟩, keysNone, (0, 0, 0)⟩

/-- Body tracker query returning a fixed position `(7000, 0, 0)`. -/
def gpW : ℕ → ℝ → Vec3 := fun _ _ => (7000, 0, 0)

/-- Body tracker query returning a fixed velocity `(0, 7.5, 0)`. -/
def gvW : ℕ → ℝ → Vec3 := fun _ _ => (0, 7.5, 0)

/-- Algebraic core: the circular-orbit rotation preserves the radius. -/
theorem circOrbit_sq_norm (R M raan inc : ℝ) :
    (R * (Real.cos raan * Real.cos M -
        Real.sin raan * Real.sin M * Real.cos inc)) ^ 2 +
      (R * (Real.sin raan * Real.cos M +
        Real.cos raan * Real.sin M * Real.cos inc)) ^ 2 +
      (R * Real.sin M * Real.sin inc) ^ 2 = R ^ 2 := by
  have hM := Real.sin_sq_add_cos_sq M
  have hR := Real.sin_sq_add_cos_sq raan
  have hI := Real.sin_sq_add_cos_sq inc
  linear_combination
    R ^ 2 * (Real.cos M ^ 2 + Real.sin M ^ 2 * Real.cos inc ^ 2) * hR +
      R ^ 2 * hM + R ^ 2 * Real.sin M ^ 2 * hI

theorem shellRadius_pos (i : ℕ) : 0 < shellRadius i := by
  unfold shellRadius
  split <;> norm_num
  split <;> norm_num
  split <;> norm_num

theorem v3len_orbitalCSMain (e : OrbElem) (t : ℝ) :
    v3len (orbitalCSMain e t) = ORBIT_KM := by
  unfold v3len orbitalCSMain
  rw [circOrbit_sq_norm ORBIT_KM (e.m0 + MEAN_MOTION * t) e.raan e.inc]
  rw [Real.sqrt_sq (by norm_num [ORBIT_KM])]

theorem v3len_calculateSatellitePosition (e : OrbElem) (t : ℝ) :
    v3len (calculateSatellitePosition e t) =
      shellRadius (shellIndexOf e.shellData) := by
  unfold v3len calculateSatellitePosition
  rw [circOrbit_sq_norm]
  exact Real.sqrt_sq (le_of_lt (shellRadius_pos _))

/-- C1, counterexample.  For the shell-0 body `elemShell0` the propagation
kernel's position at time 0 has magnitude 6921 (the kernel's fixed orbit
radius), not the 6711 km radius of the shell encoded in its orbital
element. -/
theorem C1_counterexample :
    v3len (orbitalCSMain elemShell0 0) ≠
      shellRadius (shellIndexOf elemShell0.shellData) := by
  rw [v3len_orbitalCSMain]
  show ORBIT_KM ≠ shellRadius (shellIndexOf 2)
  norm_num [ORBIT_KM, shellIndexOf, shellRadius]

/-- C1, amended.  The position magnitude is an exact invariant, but the GPU
propagation kernel keeps every body at the kernel's fixed orbit radius
6921 km regardless of the shell encoded in its orbital element, while the
host tracker keeps it at the encoded shell's radius. -/
theorem C1_magnitude_invariant (e : OrbElem) (t : ℝ) :
    v3len (orbitalCSMain e t) = ORBIT_KM ∧
      v3len (calculateSatellitePosition e t) =
        shellRadius (shellIndexOf e.shellData) :=
  ⟨v3len_orbitalCSMain e t, v3len_calculateSatellitePosition e t⟩

/-- C2.  The host tracker and the GPU kernel disagree on a shell-0 body: at
time 0 with zero angles the kernel yields `(6921, 0, 0)` while the host
tracker yields `(6711, 0, 0)`. -/
theorem C2_divergence :
    orbitalCSMain elemShell0 0 = (6921, 0, 0) ∧
      calculateSatellitePosition elemShell0 0 = (6711, 0, 0) ∧
      orbitalCSMain elemShell0 0 ≠ calculateSatellitePosition elemShell0 0 := by
  have h1 : orbitalCSMain elemShell0 0 = (6921, 0, 0) := by
    unfold orbitalCSMain elemShell0 ORBIT_KM MEAN_MOTION
    norm_num
  have h2 : calculateSatellitePosition elemShell0 0 = (6711, 0, 0) := by
    unfold calculateSatellitePosition elemShell0 shellIndexOf shellRadius
      shellMeanMotion
    norm_num
  refine ⟨h1, h2, ?_⟩
  rw [h1, h2]
  intro h
  have := congrArg Prod.fst h
  norm_num at this

theorem bsize_eq (viewMode : ℕ) (dist : ℝ) :
    bsize viewMode dist = bsizeBase dist * fleetBoost viewMode dist := by
  unfold bsize bsizeBase fleetBoost
  split <;> ring

theorem smoothstep_nonneg (e0 e1 x : ℝ) : 0 ≤ smoothstep e0 e1 x := by
  unfold smoothstep wclamp
  have ht0 : (0:ℝ) ≤ min (max ((x - e0) / (e1 - e0)) 0) 1 :=
    le_min (le_max_right _ _) (by norm_num)
  have ht1 : min (max ((x - e0) / (e1 - e0)) 0) 1 ≤ 1 := min_le_right _ _
  nlinarith [ht0, ht1]

theorem smoothstep_le_one (e0 e1 x : ℝ) : smoothstep e0 e1 x ≤ 1 := by
  unfold smoothstep wclamp
  have ht0 : (0:ℝ) ≤ min (max ((x - e0) / (e1 - e0)) 0) 1 :=
    le_min (le_max_right _ _) (by norm_num)
  have ht1 : min (max ((x - e0) / (e1 - e0)) 0) 1 ≤ 1 := min_le_right _ _
  nlinarith [ht0, ht1, sq_nonneg (1 - min (max ((x - e0) / (e1 - e0)) 0) 1)]

/-- The Hermite polynomial of `smoothstep` is monotone on `[0, 1]`. -/
theorem hermite_mono {a b : ℝ} (hb0 : 0 ≤ b) (hba : b ≤ a) (ha1 : a ≤ 1) :
    b * b * (3 - 2 * b) ≤ a * a * (3 - 2 * a) := by
  have ha0 : 0 ≤ a := le_trans hb0 hba
  have hb1 : b ≤ 1 := le_trans hba ha1
  nlinarith [mul_nonneg (sub_nonneg.2 hba) (mul_nonneg ha0 (sub_nonneg.2 ha1)),
    mul_nonneg (sub_nonneg.2 hba) (mul_nonneg hb0 (sub_nonneg.2 hb1)),
    mul_nonneg (sub_nonneg.2 hba) (mul_nonneg ha0 (sub_nonneg.2 hb1)),
    mul_nonneg (sub_nonneg.2 hba) (mul_nonneg hb0 (sub_nonneg.2 ha1))]

/-- `smoothstep 500 50` (reversed edges, as the shader calls it) is
non-increasing. -/
theorem smoothstep_rev_antitone {d1 d2 : ℝ} (h : d1 ≤ d2) :
    smoothstep 500 50 d2 ≤ smoothstep 500 50 d1 := by
  unfold smoothstep wclamp
  have hdiv : (d2 - 500) / (50 - 500) ≤ (d1 - 500) / (50 - 500) := by
    rw [show (d2 - 500) / (50 - 500) = (500 - d2) / 450 by ring,
      show (d1 - 500) / (50 - 500) = (500 - d1) / 450 by ring,
      div_le_div_iff (by norm_num) (by norm_num)]
    nlinarith
  have hmax : max ((d2 - 500) / (50 - 500)) 0 ≤ max ((d1 - 500) / (50 - 500)) 0 :=
    max_le_max hdiv le_rfl
  have hmin : min (max ((d2 - 500) / (50 - 500)) 0) 1 ≤
      min (max ((d1 - 500) / (50 - 500)) 0) 1 := min_le_min hmax le_rfl
  exact hermite_mono (le_min (le_max_right _ _) (by norm_num)) hmin
    (min_le_right _ _)

theorem bsizeBase_antitone {d1 d2 : ℝ} (h : d1 ≤ d2) :
    bsizeBase d2 ≤ bsizeBase d1 := by
  unfold bsizeBase wclamp
  have hs1 : (0:ℝ) < Real.sqrt (max d1 60) :=
    Real.sqrt_pos.2 (lt_of_lt_of_le (by norm_num) (le_max_right d1 60))
  have hs : Real.sqrt (max d1 60) ≤ Real.sqrt (max d2 60) :=
    Real.sqrt_le_sqrt (max_le_max h le_rfl)
  have hdiv : 900 / Real.sqrt (max d2 60) ≤ 900 / Real.sqrt (max d1 60) := by
    gcongr
  exact min_le_min (max_le_max hdiv le_rfl) le_rfl

theorem bsizeBase_mem (d : ℝ) : 0.5 ≤ bsizeBase d ∧ bsizeBase d ≤ 90 := by
  unfold bsizeBase wclamp
  exact ⟨le_min (le_max_right _ _) (by norm_num), min_le_right _ _⟩

theorem fleetBoost_mem (m : ℕ) (d : ℝ) :
    1 ≤ fleetBoost m d ∧ fleetBoost m d ≤ 2.5 := by
  unfold fleetBoost
  split
  · constructor
    · nlinarith [smoothstep_nonneg 500 50 d]
    · nlinarith [smoothstep_le_one 500 50 d]
  · norm_num

theorem fleetBoost_antitone (m : ℕ) {d1 d2 : ℝ} (h : d1 ≤ d2) :
    fleetBoost m d2 ≤ fleetBoost m d1 := by
  unfold fleetBoost
  by_cases h2 : m = 2 ∧ d2 < 500
  · have h1 : m = 2 ∧ d1 < 500 := ⟨h2.1, lt_of_le_of_lt h h2.2⟩
    rw [if_pos h2, if_pos h1]
    nlinarith [smoothstep_rev_antitone h]
  · rw [if_neg h2]
    by_cases h1 : m = 2 ∧ d1 < 500
    · rw [if_pos h1]
      nlinarith [smoothstep_nonneg 500 50 d1]
    · rw [if_neg h1]

/-- C3, counterexample.  In Fleet-POV mode (view mode 2) at distance 0 the
billboard size is 225, exceeding the configured maximum size 90: the
close-up boost multiplies the already-clamped size by 2.5. -/
theorem C3_counterexample : bsize 2 0 = 225 ∧ ¬ bsize 2 0 ≤ 90 := by
  have hsqrt100 : Real.sqrt 100 = 10 := by
    rw [show (100:ℝ) = 10 ^ 2 by norm_num, Real.sqrt_sq (by norm_num)]
  have hs_pos : (0:ℝ) < Real.sqrt 60 := Real.sqrt_pos.2 (by norm_num)
  have hs_le : Real.sqrt 60 ≤ 10 := by
    calc Real.sqrt 60 ≤ Real.sqrt 100 := Real.sqrt_le_sqrt (by norm_num)
    _ = 10 := hsqrt100
  have hdiv : (90:ℝ) ≤ 900 / Real.sqrt 60 := by
    rw [le_div_iff hs_pos]; nlinarith
  have hmax0 : max (0:ℝ) 60 = 60 := by norm_num
  have hsstep : smoothstep 500 50 0 = 1 := by
    unfold smoothstep wclamp
    norm_num
  have hbase : wclamp (900 / Real.sqrt (max (0:ℝ) 60)) 0.5 90 = 90 := by
    rw [hmax0]
    unfold wclamp
    rw [max_eq_left (by linarith), min_eq_right (by linarith)]
  have h : bsize 2 0 = 225 := by
    unfold bsize
    rw [if_pos ⟨rfl, by norm_num⟩, hbase, hsstep]
    norm_num
  exact ⟨h, by rw [h]; norm_num⟩

/-- C3, amended.  The billboard size is non-increasing in camera distance in
every view mode, and it lies within the configured bounds `[0.5, 90]` in
every mode except Fleet-POV (mode 2), where the close-up boost can raise it
to at most 2.5 times the maximum, i.e. `[0.5, 225]` overall. -/
theorem C3_billboard_size :
    (∀ (viewMode : ℕ) (d1 d2 : ℝ), d1 ≤ d2 →
        bsize viewMode d2 ≤ bsize viewMode d1) ∧
      (∀ (viewMode : ℕ) (d : ℝ),
        0.5 ≤ bsize viewMode d ∧ bsize viewMode d ≤ 225 ∧
          (viewMode ≠ 2 → bsize viewMode d ≤ 90)) := by
  constructor
  · intro m d1 d2 h
    rw [bsize_eq, bsize_eq]
    have hb2 := bsizeBase_mem d2
    have hf2 := fleetBoost_mem m d2
    have hb1 := bsizeBase_mem d1
    exact mul_le_mul (bsizeBase_antitone h) (fleetBoost_antitone m h)
      (by linarith [hf2.1]) (by linarith [hb1.1])
  · intro m d
    rw [bsize_eq]
    have hb := bsizeBase_mem d
    have hf := fleetBoost_mem m d
    refine ⟨?_, ?_, ?_⟩
    · nlinarith [hb.1, hf.1]
    · nlinarith [hb.1, hb.2, hf.1, hf.2]
    · intro hm
      have : fleetBoost m d = 1 := by
        unfold fleetBoost
        rw [if_neg (by intro hc; exact hm hc.1)]
      rw [this, mul_one]
      exact hb.2

/-- C3, witness: the amended theorem at concrete distances. -/
theorem C3_witness :
    bsize 0 100 ≤ bsize 0 50 ∧ 0.5 ≤ bsize 2 1000 ∧ bsize 0 7 ≤ 90 :=
  ⟨C3_billboard_size.1 0 50 100 (by norm_num),
   (C3_billboard_size.2 2 1000).1,
   (C3_billboard_size.2 0 7).2.2 (by norm_num)⟩

theorem quadA_pos (cam wp : Vec3) (hne : wp ≠ cam) : 0 < quadA cam wp := by
  by_contra h0
  have ha : quadA cam wp ≤ 0 := not_lt.mp h0
  unfold quadA v3dot v3sub at ha
  dsimp only at ha
  have hx : wp.1 - cam.1 = 0 := by
    nlinarith [sq_nonneg (wp.1 - cam.1), sq_nonneg (wp.2.1 - cam.2.1),
      sq_nonneg (wp.2.2 - cam.2.2)]
  have hy : wp.2.1 - cam.2.1 = 0 := by
    nlinarith [sq_nonneg (wp.1 - cam.1), sq_nonneg (wp.2.1 - cam.2.1),
      sq_nonneg (wp.2.2 - cam.2.2)]
  have hz : wp.2.2 - cam.2.2 = 0 := by
    nlinarith [sq_nonneg (wp.1 - cam.1), sq_nonneg (wp.2.1 - cam.2.1),
      sq_nonneg (wp.2.2 - cam.2.2)]
  exact hne (Prod.ext (by linarith) (Prod.ext (by linarith) (by linarith)))

/-- If the camera-to-body segment meets the planet sphere at a parameter
strictly inside `(0, 1)`, the shader's root test fires: the root formula
with the discriminant square root recovers that parameter as `t1` or `t2`. -/
theorem horizonCulled_of_root (cam wp : Vec3) (hne : wp ≠ cam) (t : ℝ)
    (ht0 : 0 < t) (ht1 : t < 1)
    (hroot : v3len (v3add cam (v3scale (v3sub wp cam) t)) = EARTH_RADIUS_KM) :
    horizonCulled cam wp := by
  have ha := quadA_pos cam wp hne
  have haz : quadA cam wp ≠ 0 := ne_of_gt ha
  have hS : quadA cam wp * (t * t) + quadB cam wp * t + quadC cam = 0 := by
    have hnn : 0 ≤ (v3add cam (v3scale (v3sub wp cam) t)).1 ^ 2 +
        (v3add cam (v3scale (v3sub wp cam) t)).2.1 ^ 2 +
        (v3add cam (v3scale (v3sub wp cam) t)).2.2 ^ 2 := by positivity
    have hsq : (v3add cam (v3scale (v3sub wp cam) t)).1 ^ 2 +
        (v3add cam (v3scale (v3sub wp cam) t)).2.1 ^ 2 +
        (v3add cam (v3scale (v3sub wp cam) t)).2.2 ^ 2 =
        EARTH_RADIUS_KM ^ 2 := by
      rw [← Real.sq_sqrt hnn]
      exact congrArg (· ^ 2) hroot
    unfold quadA quadB quadC v3dot v3sub EARTH_RADIUS_KM
    unfold v3add v3scale v3sub at hsq
    dsimp only at hsq ⊢
    unfold EARTH_RADIUS_KM at hsq
    linear_combination hsq
  have hd : discrim (quadA cam wp) (quadB cam wp) (quadC cam) =
      (2 * quadA cam wp * t + quadB cam wp) ^ 2 :=
    (quadratic_eq_zero_iff_discrim_eq_sq haz t).mp hS
  have hdisc_eq : quadB cam wp * quadB cam wp - 4 * quadA cam wp * quadC cam =
      discrim (quadA cam wp) (quadB cam wp) (quadC cam) := by
    unfold discrim; ring
  have hsqrt : Real.sqrt
      (quadB cam wp * quadB cam wp - 4 * quadA cam wp * quadC cam) =
      |2 * quadA cam wp * t + quadB cam wp| := by
    rw [hdisc_eq, hd, Real.sqrt_sq_eq_abs]
  constructor
  · rw [hdisc_eq, hd]; positivity
  · by_cases hsign : 0 ≤ 2 * quadA cam wp * t + quadB cam wp
    · right
      have h2 : hcT2 cam wp = t := by
        unfold hcT2
        rw [hsqrt, abs_of_nonneg hsign,
          show -quadB cam wp + (2 * quadA cam wp * t + quadB cam wp) =
            2 * quadA cam wp * t by ring]
        exact mul_div_cancel_left₀ t (by positivity)
      rw [h2]; exact ⟨ht0, ht1⟩
    · left
      have h1 : hcT1 cam wp = t := by
        unfold hcT1
        rw [hsqrt, abs_of_neg (lt_of_not_le hsign),
          show -quadB cam wp - -(2 * quadA cam wp * t + quadB cam wp) =
            2 * quadA cam wp * t by ring]
        exact mul_div_cancel_left₀ t (by positivity)
      rw [h1]; exact ⟨ht0, ht1⟩

/-- A ground camera exactly on the sphere (`quadC = 0`) looking at a body
radially outward (`quadB > 0`) is never horizon-culled: the roots are 0 and
a negative number. -/
theorem not_horizonCulled_outward (cam wp : Vec3) (hc : quadC cam = 0)
    (hb : 0 < quadB cam wp) (ha : 0 < quadA cam wp) :
    ¬ horizonCulled cam wp := by
  intro h
  unfold horizonCulled at h
  obtain ⟨_, hcase⟩ := h
  have hsq : quadB cam wp * quadB cam wp - 4 * quadA cam wp * quadC cam =
      quadB cam wp ^ 2 := by rw [hc]; ring
  have hsqrt : Real.sqrt
      (quadB cam wp * quadB cam wp - 4 * quadA cam wp * quadC cam) =
      quadB cam wp := by rw [hsq, Real.sqrt_sq hb.le]
  rcases hcase with ⟨h1, _⟩ | ⟨h2, _⟩
  · unfold hcT1 at h1
    rw [hsqrt] at h1
    have : (-quadB cam wp - quadB cam wp) / (2 * quadA cam wp) < 0 :=
      div_neg_of_neg_of_pos (by linarith) (by linarith)
    linarith
  · unfold hcT2 at h2
    rw [hsqrt] at h2
    rw [show -quadB cam wp + quadB cam wp = 0 by ring, zero_div] at h2
    exact lt_irrefl 0 h2

/-- C4.  A body farther than the 180000 km render distance is never drawn,
and a body beyond the -200 outward margin of any frustum half-space is never
drawn: in both cases the vertex stage emits the degenerate invisible output
with zero brightness, in every view mode. -/
theorem C4_culling_soundness (uni : Uni) (satPos : ℕ → Vec3 × ℝ)
    (vi : Fin 6) (ii : ℕ) :
    (v3len (v3sub (satPos ii).1 uni.cameraPos) > 180000 →
      satShaderVS uni satPos vi ii = invisibleVOut) ∧
    ((∃ p : Fin 6, planeDot (uni.frustum p) (satPos ii).1 < -200) →
      satShaderVS uni satPos vi ii = invisibleVOut) := by
  constructor
  · intro h
    unfold satShaderVS
    apply if_neg
    intro hv
    unfold satVisible at hv
    exact hv.1 h
  · rintro ⟨p, hp⟩
    unfold satShaderVS
    apply if_neg
    intro hv
    unfold satVisible at hv
    exact hv.2.1 p hp

/-- C4, witness: a body at distance 200000 km is culled, and a body at
`x = 300` behind the plane `-x - 200 ≥ 0` margin is culled. -/
theorem C4_witness :
    satShaderVS uniBase satPosFar 0 0 = invisibleVOut ∧
      satShaderVS uniFrustumW satPosNear 0 0 = invisibleVOut := by
  constructor
  · apply (C4_culling_soundness uniBase satPosFar 0 0).1
    show v3len (v3sub (200000, 0, 0) (0, 0, 0)) > 180000
    unfold v3len v3sub
    norm_num
    rw [show (40000000000:ℝ) = 200000 ^ 2 by norm_num,
      Real.sqrt_sq (by norm_num : (0:ℝ) ≤ 200000)]
    norm_num
  · apply (C4_culling_soundness uniFrustumW satPosNear 0 0).2
    exact ⟨0, by norm_num [planeDot, uniFrustumW, satPosNear, uniBase]⟩

/-- C5.  In ground view, a body whose camera segment crosses the planet
sphere at a parameter strictly in `(0, 1)` is never drawn; and concretely, a
ground camera at `(6371,0,0)` culls the body `(-12742,0,0)` behind the
planet while the body `(25484,0,0)` directly overhead at the same 19113 km
distance is not horizon-culled. -/
theorem C5_horizon_occlusion :
    (∀ (uni : Uni) (satPos : ℕ → Vec3 × ℝ) (vi : Fin 6) (ii : ℕ),
        uni.isGroundView = true →
        (satPos ii).1 ≠ uni.cameraPos →
        (∃ t : ℝ, 0 < t ∧ t < 1 ∧
          v3len (v3add uni.cameraPos
            (v3scale (v3sub (satPos ii).1 uni.cameraPos) t)) =
            EARTH_RADIUS_KM) →
        satShaderVS uni satPos vi ii = invisibleVOut) ∧
      horizonCulled (6371, 0, 0) (-12742, 0, 0) ∧
      ¬ horizonCulled (6371, 0, 0) (25484, 0, 0) := by
  refine ⟨?_, ?_, ?_⟩
  · rintro uni satPos vi ii hground hne ⟨t, ht0, ht1, hroot⟩
    unfold satShaderVS
    apply if_neg
    intro hv
    unfold satVisible at hv
    exact hv.2.2 hground (horizonCulled_of_root _ _ hne t ht0 ht1 hroot)
  · apply horizonCulled_of_root (t := 2/3)
    · intro h
      have := congrArg Prod.fst h
      norm_num at this
    · norm_num
    · norm_num
    · unfold v3len v3add v3scale v3sub EARTH_RADIUS_KM
      norm_num
      rw [show (40589641:ℝ) = 6371 ^ 2 by norm_num,
        Real.sqrt_sq (by norm_num : (0:ℝ) ≤ 6371)]
  · apply not_horizonCulled_outward
    · unfold quadC v3dot EARTH_RADIUS_KM
      norm_num
    · unfold quadB v3dot v3sub
      norm_num
    · unfold quadA v3dot v3sub
      norm_num

/-- C5, witness: the general horizon-cull theorem applied to the ground
camera at `(6371,0,0)` and the behind-planet body `(-12742,0,0)`, whose
segment meets the sphere at parameter `t = 2/3`. -/
theorem C5_witness :
    satShaderVS uniGroundW satPosBehind 0 0 = invisibleVOut := by
  apply C5_horizon_occlusion.1 uniGroundW satPosBehind 0 0 rfl
  · intro h
    have := congrArg Prod.fst h
    norm_num [satPosBehind, uniGroundW, uniBase] at this
  · refine ⟨2/3, by norm_num, by norm_num, ?_⟩
    show v3len (v3add (6371, 0, 0)
      (v3scale (v3sub (-12742, 0, 0) (6371, 0, 0)) (2/3))) = EARTH_RADIUS_KM
    unfold v3len v3add v3scale v3sub EARTH_RADIUS_KM
    norm_num
    rw [show (40589641:ℝ) = 6371 ^ 2 by norm_num,
      Real.sqrt_sq (by norm_num : (0:ℝ) ≤ 6371)]

/-- C6.  Every beam lane below `MAX_BEAMS` maps to body index `16 * i` and
writes a full beam; under the default pattern mode 1 the set of enabled
beams is exactly the indices below `N / stride = 65536`; and every lane at
or beyond `N / stride` writes nothing (it is never enabled). -/
theorem C6_beam_subsampling (satPos : ℕ → Vec3 × ℝ) (params : BeamParams) :
    (∀ i, i < MAX_BEAMS → ∃ b,
        beamComputeMain satPos params i = .write b ∧
          b.startPos = (satPos (SATELLITE_STRIDE * i)).1) ∧
      (params.patternMode = 1 →
        {i : ℕ | beamEnabled satPos params i} =
          {i : ℕ | i < NUM_SAT / SATELLITE_STRIDE}) ∧
      (∀ i, NUM_SAT / SATELLITE_STRIDE ≤ i →
        beamComputeMain satPos params i = .noWrite) := by
  have hdiv : NUM_SAT / SATELLITE_STRIDE = 65536 := by
    norm_num [NUM_SAT, SATELLITE_STRIDE]
  have hwrite : ∀ i, i < MAX_BEAMS → ∃ b,
      beamComputeMain satPos params i = .write b ∧
        b.startPos = (satPos (SATELLITE_STRIDE * i)).1 := by
    intro i hi
    have hiM : i < 65536 := by unfold MAX_BEAMS at hi; exact hi
    unfold beamComputeMain
    rw [if_neg (by unfold MAX_BEAMS; omega),
      if_neg (by unfold SATELLITE_STRIDE NUM_SAT; omega)]
    split
    · exact ⟨_, rfl, rfl⟩
    · split
      · split
        · exact ⟨_, rfl, rfl⟩
        · exact ⟨_, rfl, rfl⟩
      · split
        · split
          · exact ⟨_, rfl, rfl⟩
          · exact ⟨_, rfl, rfl⟩
        · exact ⟨_, rfl, rfl⟩
  have hnone : ∀ i, NUM_SAT / SATELLITE_STRIDE ≤ i →
      beamComputeMain satPos params i = .noWrite := by
    intro i hi
    rw [hdiv] at hi
    unfold beamComputeMain
    rw [if_pos (by unfold MAX_BEAMS; omega)]
  refine ⟨hwrite, ?_, hnone⟩
  intro hmode
  ext i
  simp only [Set.mem_setOf_eq]
  constructor
  · intro henabled
    by_contra hge
    obtain ⟨b, hb, _⟩ := henabled
    rw [hnone i (le_of_not_lt hge)] at hb
    exact BeamWrite.noConfusion hb
  · intro hi
    rw [hdiv] at hi
    unfold beamEnabled beamComputeMain
    rw [if_neg (by unfold MAX_BEAMS; omega),
      if_neg (by unfold SATELLITE_STRIDE NUM_SAT; omega), hmode]
    norm_num
    split
    · exact ⟨_, rfl, by norm_num⟩
    · exact ⟨_, rfl, by norm_num⟩

/-- C6, witness: lane 5 maps to body 80 under the default logo parameters,
the enabled set is exactly `[0, 65536)`, and lane 70000 writes nothing. -/
theorem C6_witness :
    (∃ b, beamComputeMain satPosFar paramsGrok 5 = .write b ∧
        b.startPos = (satPosFar (SATELLITE_STRIDE * 5)).1) ∧
      {i : ℕ | beamEnabled satPosFar paramsGrok i} =
        {i : ℕ | i < NUM_SAT / SATELLITE_STRIDE} ∧
      beamComputeMain satPosFar paramsGrok 70000 = .noWrite :=
  ⟨(C6_beam_subsampling satPosFar paramsGrok).1 5 (by norm_num [MAX_BEAMS]),
   (C6_beam_subsampling satPosFar paramsGrok).2.1 rfl,
   (C6_beam_subsampling satPosFar paramsGrok).2.2 70000
     (by norm_num [NUM_SAT, SATELLITE_STRIDE])⟩

theorem bloomThresholdFS_zero (uv : ℝ × ℝ) :
    bloomThresholdFS zeroImg uv = (0, 0, 0) := by
  unfold bloomThresholdFS zeroImg v3scale
  norm_num

theorem bloomBlurFS_zero (texel : ℝ × ℝ) (horizontal : Bool) (img : Img)
    (himg : ∀ uv, img uv = (0, 0, 0)) (uv : ℝ × ℝ) :
    bloomBlurFS texel horizontal img uv = (0, 0, 0) := by
  unfold bloomBlurFS
  simp only [himg]
  unfold v3scale v3add
  norm_num

/-- C9.  A fully black HDR input stays fully black through the bloom
threshold stage and both blur passes: every pixel of the pipeline output is
zero. -/
theorem C9_bloom_black (texel : ℝ × ℝ) (uv : ℝ × ℝ) :
    bloomPipeline texel zeroImg uv = (0, 0, 0) := by
  unfold bloomPipeline
  exact bloomBlurFS_zero texel false _
    (fun uv2 => bloomBlurFS_zero texel true _
      (fun uv3 => bloomThresholdFS_zero uv3) uv2) uv

theorem v3norm_axis (x : ℝ) (hx : 0 < x) : v3norm (x, 0, 0) = (1, 0, 0) := by
  unfold v3norm v3len
  dsimp only
  have hs : Real.sqrt (x ^ 2 + 0 ^ 2 + 0 ^ 2) = x := by
    rw [show x ^ 2 + 0 ^ 2 + 0 ^ 2 = x ^ 2 by ring]
    exact Real.sqrt_sq hx.le
  rw [hs, if_neg hx.ne']
  rw [div_self hx.ne', zero_div]

theorem calculateFleetPOV_keysNone (st : CtrlState) (hk : st.keys = keysNone) :
    (calculateFleetPOV st gpW gvW 0).1.position =
        (7012 + st.fleetOffset.1 * 0.98, st.fleetOffset.2.1 * 0.98,
          st.fleetOffset.2.2 * 0.98) ∧
      (calculateFleetPOV st gpW gvW 0).2 =
        (st.fleetOffset.1 * 0.98, st.fleetOffset.2.1 * 0.98,
          st.fleetOffset.2.2 * 0.98) := by
  unfold calculateFleetPOV
  rw [hk]
  simp only [keysNone, Bool.false_eq_true, if_false, or_self, gpW, gvW]
  rw [v3norm_axis 7000 (by norm_num)]
  constructor
  · show v3add (v3add (v3add (7000, 0, 0) (v3scale (1, 0, 0) 12))
        (v3scale st.fleetOffset 0.98)) _ = _
    unfold v3add v3scale
    norm_num [Real.sin_zero]
  · show v3scale st.fleetOffset 0.98 = _
    unfold v3scale
    rfl

/-- C7, counterexample.  The FirstPerson (Fleet-POV) computation is not
pure: starting from a pending micro-movement offset `(1,0,0)` with no keys
held, one call dampens the stored offset to `(0.98,0,0)` (the controller
state changes), and a repeated call with identical explicit inputs returns a
different camera position. -/
theorem C7_counterexample :
    (calculateCamera fleetS0 gpW gvW 0).2 ≠ fleetS0 ∧
      (calculateCamera ((calculateCamera fleetS0 gpW gvW 0).2) gpW gvW 0).1.position ≠
        (calculateCamera fleetS0 gpW gvW 0).1.position := by
  have hk0 : fleetS0.keys = keysNone := rfl
  have h1 := calculateFleetPOV_keysNone fleetS0 hk0
  have hs1 : (calculateCamera fleetS0 gpW gvW 0).2 =
      { fleetS0 with fleetOffset := ((0.98 : ℝ), 0, 0) } := by
    show ({ fleetS0 with
      fleetOffset := (calculateFleetPOV fleetS0 gpW gvW 0).2 } : CtrlState) = _
    rw [h1.2]
    norm_num [fleetS0]
  have hk1 : ({ fleetS0 with fleetOffset := ((0.98 : ℝ), 0, 0) } : CtrlState).keys
      = keysNone := rfl
  have h2 := calculateFleetPOV_keysNone _ hk1
  constructor
  · intro h
    have := congrArg (fun s : CtrlState => s.fleetOffset.1) (hs1 ▸ h)
    simp only [fleetS0] at this
    norm_num at this
  · intro h
    rw [hs1] at h
    have hA : (calculateCamera
        ({ fleetS0 with fleetOffset := ((0.98 : ℝ), 0, 0) } : CtrlState)
        gpW gvW 0).1.position =
        (7012 + 0.98 * 0.98, 0 * 0.98, 0 * 0.98) := by
      show (calculateFleetPOV _ gpW gvW 0).1.position = _
      rw [h2.1]
    have hB : (calculateCamera fleetS0 gpW gvW 0).1.position =
        (7012 + 1 * 0.98, 0 * 0.98, 0 * 0.98) := by
      show (calculateFleetPOV fleetS0 gpW gvW 0).1.position = _
      rw [h1.1]
      norm_num [fleetS0]
    rw [hA, hB] at h
    have := congrArg Prod.fst h
    norm_num at this

/-- C7, amended.  The Horizon, God/Free-Orbit and Ground computations are
pure: for fixed angular state and time they leave the controller state
unchanged and a repeated call returns the identical `CameraState`.  The
FirstPerson computation has the same property only when the fleet
micro-movement offset is zero and no movement key is held; otherwise it
rewrites the stored offset (key integration and 0.98 damping), and repeated
calls differ. -/
theorem C7_camera_purity (st : CtrlState) (getPos getVel : ℕ → ℝ → Vec3)
    (t : ℝ) :
    (st.currentMode ≠ .satPov →
      (calculateCamera st getPos getVel t).2 = st ∧
        (calculateCamera (calculateCamera st getPos getVel t).2
          getPos getVel t).1 = (calculateCamera st getPos getVel t).1) ∧
      (st.currentMode = .satPov → st.fleetOffset = (0, 0, 0) →
        NoMoveKeys st.keys →
        (calculateCamera st getPos getVel t).2 = st ∧
          (calculateCamera (calculateCamera st getPos getVel t).2
            getPos getVel t).1 = (calculateCamera st getPos getVel t).1) := by
  constructor
  · intro hm
    have hstate : (calculateCamera st getPos getVel t).2 = st := by
      unfold calculateCamera
      cases hmode : st.currentMode
      · simp only [hmode]
      · simp only [hmode]
      · exact absurd hmode hm
      · simp only [hmode]
    exact ⟨hstate, by rw [hstate]⟩
  · intro hm hoff hkeys
    obtain ⟨h1, h2, h3, h4, h5, h6, h7, h8⟩ := hkeys
    have hoffNew : (calculateFleetPOV st getPos getVel t).2 = (0, 0, 0) := by
      unfold calculateFleetPOV
      simp only [h1, h2, h3, h4, h5, h6, h7, h8, Bool.false_eq_true, if_false,
        or_self, hoff]
      show v3scale (0, 0, 0) 0.98 = (0, 0, 0)
      unfold v3scale
      norm_num
    have hstate : (calculateCamera st getPos getVel t).2 = st := by
      unfold calculateCamera
      simp only [hm]
      rw [hoffNew, ← hoff, ← hm]
    exact ⟨hstate, by rw [hstate]⟩

/-- C7, witness: the purity theorem at the Horizon state `stHorizonW` and at
the zero-offset Fleet-POV state `fleetS1`. -/
theorem C7_witness :
    ((calculateCamera stHorizonW gpW gvW 0).2 = stHorizonW ∧
      (calculateCamera (calculateCamera stHorizonW gpW gvW 0).2
        gpW gvW 0).1 = (calculateCamera stHorizonW gpW gvW 0).1) ∧
      ((calculateCamera fleetS1 gpW gvW 0).2 = fleetS1 ∧
        (calculateCamera (calculateCamera fleetS1 gpW gvW 0).2
          gpW gvW 0).1 = (calculateCamera fleetS1 gpW gvW 0).1) :=
  ⟨(C7_camera_purity stHorizonW gpW gvW 0).1
      (fun h => ViewMode.noConfusion h),
   (C7_camera_purity fleetS1 gpW gvW 0).2 rfl rfl
      ⟨rfl, rfl, rfl, rfl, rfl, rfl, rfl, rfl⟩⟩

/-- C8, counterexample.  At yaw 0, pitch 0, Horizon mode, the computed
target is `(8091, 0, 5000)`: its `z`-component is the fixed upward offset
5000, so the target does not lie on the `+X` axis through the camera. -/
theorem C8_counterexample :
    (calculateHorizonView stHorizonW).target = (8091, 0, 5000) ∧
      ¬ (calculateHorizonView stHorizonW).target.2.2 = 0 := by
  have h : (calculateHorizonView stHorizonW).target = (8091, 0, 5000) := by
    unfold calculateHorizonView stHorizonW CAMERA_RADIUS_KM
    norm_num [Real.cos_zero, Real.sin_zero]
  exact ⟨h, by rw [h]; norm_num⟩

/-- C8, amended.  At yaw 0, pitch 0, Horizon mode, time 0: the camera sits
at the fixed horizon radius 7091 on the `+X` axis; the target is the camera
moved 1000 outward along `+X` and raised 5000 in `z` (the base upward look),
so its radius exceeds the horizon radius but it is not collinear with the
axis. -/
theorem C8_horizon_scenario :
    (calculateHorizonView stHorizonW).position = (7091, 0, 0) ∧
      (calculateHorizonView stHorizonW).target = (8091, 0, 5000) ∧
      v3len (calculateHorizonView stHorizonW).target > CAMERA_RADIUS_KM := by
  have hpos : (calculateHorizonView stHorizonW).position = (7091, 0, 0) := by
    unfold calculateHorizonView stHorizonW CAMERA_RADIUS_KM
    norm_num [Real.cos_zero, Real.sin_zero]
  have htar : (calculateHorizonView stHorizonW).target = (8091, 0, 5000) := by
    unfold calculateHorizonView stHorizonW CAMERA_RADIUS_KM
    norm_num [Real.cos_zero, Real.sin_zero]
  refine ⟨hpos, htar, ?_⟩
  rw [htar]
  unfold v3len CAMERA_RADIUS_KM
  dsimp only
  rw [show (8091:ℝ) ^ 2 + 0 ^ 2 + 5000 ^ 2 = 90464281 by norm_num,
    show (7091.0:ℝ) = 7091 by norm_num]
  rw [show (7091:ℝ) = Real.sqrt (7091 ^ 2) from
    (Real.sqrt_sq (by norm_num)).symm]
  apply Real.sqrt_lt_sqrt (by positivity)
  norm_num

/-- C10.  `setViewMode` maps any index outside `{0,1,2,3}` to the Horizon
mode, always resets the fleet micro-movement offset to zero, and leaves the
persistent yaw/pitch/distance angles untouched. -/
theorem C10_setViewMode (idx : ℤ) (st : CtrlState) :
    (idx ∉ ({0, 1, 2, 3} : Set ℤ) →
      (setViewMode idx st).currentMode = .horizon) ∧
      (setViewMode idx st).fleetOffset = (0, 0, 0) ∧
      (setViewMode idx st).cameraAngles = st.cameraAngles := by
  refine ⟨?_, rfl, rfl⟩
  intro h
  simp only [Set.mem_insert_iff, Set.mem_singleton_iff, not_or] at h
  obtain ⟨h0, h1, h2, h3⟩ := h
  unfold setViewMode
  simp only [h0, h1, h2, h3, if_false]

/-- C10, witness: index 7 falls back to Horizon with the offset reset and
angles preserved. -/
theorem C10_witness :
    (setViewMode 7 stHorizonW).currentMode = .horizon ∧
      (setViewMode 7 stHorizonW).fleetOffset = (0, 0, 0) ∧
      (setViewMode 7 stHorizonW).cameraAngles = stHorizonW.cameraAngles :=
  ⟨(C10_setViewMode 7 stHorizonW).1 (by norm_num),
   (C10_setViewMode 7 stHorizonW).2.1,
   (C10_setViewMode 7 stHorizonW).2.2⟩

end GrokZephyr
